import Mathlib

/-!
Shallow embedding of the retry/backoff core and service-handle lifecycle of
the gapi-helper library (src/gapi_helper), together with proofs about the
spec's claims.

Errors raised by operations are modelled by `GError`; observable side effects
(log lines, sleeps, handle resets) are modelled as an event trace.  Float
delay arithmetic is modelled over `ℚ` (the only multiplier in the source is
the exact constant 1.5).
-/

/-- Errors an operation may raise, as classified by the source code:
`googleapiclient.errors.HttpError` carrying an HTTP status, Python
`RuntimeError` (carrying its message), or any other exception. -/
inductive GError where
  | httpError (status : Nat) : GError
  | runtimeError (msg : String) : GError
  | otherError (tag : String) : GError
deriving DecidableEq, Repr

/-- Observable side effects of the retry loops: log lines at their levels,
sleeps with their delay, and service-handle resets. -/
inductive Event where
  | logInfoRetrying : Event
  | logInfoOp : Event
  | logWarnFailed (failures : Nat) (delay : ℚ) : Event
  | logWarnAbandon : Event
  | logCritical : Event
  | logWarnCouldNot : Event
  | sleep (delay : ℚ) : Event
  | reset : Event
deriving DecidableEq, Repr

/-- Delays of the sleep events of a trace, in order. -/
def sleepDelays (tr : List Event) : List ℚ :=
  tr.filterMap fun ev =>
    match ev with
    | Event.sleep d => some d
    | _ => none

/-- Number of sleep events in a trace. -/
def sleepCount (tr : List Event) : Nat :=
  (sleepDelays tr).length

/-- Number of "Too many failures, abandonning" warning lines in a trace. -/
def abandonCount (tr : List Event) : Nat :=
  tr.countP fun ev =>
    match ev with
    | Event.logWarnAbandon => true
    | _ => false

/-- Number of "Failed n times (e), retrying in d seconds..." warning lines. -/
def warnFailedCount (tr : List Event) : Nat :=
  tr.countP fun ev =>
    match ev with
    | Event.logWarnFailed _ _ => true
    | _ => false

/-- Number of handle-reset events in a trace. -/
def resetCount (tr : List Event) : Nat :=
  tr.countP fun ev =>
    match ev with
    | Event.reset => true
    | _ => false

/-- The error classification hard-coded in `common/operations.py` `execute`:
an `HttpError` whose status is in `[403, 400]`, or any `RuntimeError`, is
re-raised immediately (fatal); everything else falls through to the retry
path. -/
def isFatalCommon : GError → Bool
  | GError.httpError status => status == 403 || status == 400
  | GError.runtimeError _ => true
  | GError.otherError _ => false

/-- The retry loop of `common/operations.py` `execute`.  `cb n` is the
outcome of the attempt made when the `failures` counter equals `n`;
`hasLogger` models whether a `logger` argument was supplied.  Returns the
event trace together with the result (`Except.error e` models `raise e`). -/
def executeGo {X : Type} (cb : Nat → Except GError X) (hasLogger : Bool)
    (failures : Nat) (delay : ℚ) : List Event × Except GError X :=
  let retryLog : List Event :=
    if 0 < failures then (if hasLogger then [Event.logInfoRetrying] else []) else []
  match cb failures with
  | Except.ok x => (retryLog, Except.ok x)
  | Except.error e =>
    if isFatalCommon e then
      (retryLog, Except.error e)
    else
      if _h : failures + 1 > 5 then
        (retryLog ++ (if hasLogger then [Event.logWarnAbandon] else []), Except.error e)
      else
        let rest := executeGo cb hasLogger (failures + 1) (delay * (3 / 2))
        (retryLog
            ++ (if hasLogger then [Event.logWarnFailed (failures + 1) delay] else [])
            ++ [Event.sleep delay]
            ++ rest.1,
          rest.2)
termination_by 5 - failures
decreasing_by
  simp_wf
  omega

/-- `execute(callback, retry_delay, logger)` from `common/operations.py`:
the loop starts with `failures = 0` and `delay = retry_delay`. -/
def execute {X : Type} (cb : Nat → Except GError X) (retry_delay : ℚ)
    (hasLogger : Bool) : List Event × Except GError X :=
  executeGo cb hasLogger 0 retry_delay

/-- Checks whether an `Except` result is a success. -/
def exceptIsOk {X : Type} : Except GError X → Bool
  | Except.ok _ => true
  | Except.error _ => false

/-- Class-level state of `drive/client.py` `DriveService` together with the
per-instance fields of one handle: the configured key-file path, the cached
client resource and credentials (opaque values, identified by the value of
the construction counter at build time), and `buildCount`, the number of
`googleapiclient.discovery.build` calls made so far. -/
structure DriveState where
  sa_keyfile : Option String
  service : Option Nat
  credentials : Option Nat
  buildCount : Nat
deriving DecidableEq, Repr

/-- `DriveService.getService`: returns the cached client when present;
otherwise raises `RuntimeError("Service is not configured")` when no key
file is configured, else builds credentials and the client and caches both. -/
def DriveService.getService (s : DriveState) : Except GError (DriveState × Nat) :=
  match s.service with
  | some svc => Except.ok (s, svc)
  | none =>
    match s.sa_keyfile with
    | none => Except.error (GError.runtimeError "Service is not configured")
    | some _ =>
      let svc := s.buildCount
      let s2 := { s with service := some svc, credentials := some svc,
                          buildCount := s.buildCount + 1 }
      Except.ok (s2, svc)

/-- `DriveService.reset`: sets both `self.service` and `self.credentials`
to `None`. -/
def DriveService.reset (s : DriveState) : DriveState :=
  { s with service := none, credentials := none }

/-- State of `mail/client.py` `MailService`: configured key file, the
sender (a required constructor argument), cached client and credentials,
and the construction counter. -/
structure MailState where
  sa_keyfile : Option String
  sender : String
  service : Option Nat
  credentials : Option Nat
  buildCount : Nat
deriving DecidableEq, Repr

/-- `MailService.getService`: returns the cached client when present;
otherwise raises the configuration `RuntimeError` when no key file is
configured, else builds delegated credentials and the client and caches
both. -/
def MailService.getService (s : MailState) : Except GError (MailState × Nat) :=
  match s.service with
  | some svc => Except.ok (s, svc)
  | none =>
    match s.sa_keyfile with
    | none => Except.error (GError.runtimeError "Service is not configured")
    | some _ =>
      let svc := s.buildCount
      let s2 := { s with service := some svc, credentials := some svc,
                          buildCount := s.buildCount + 1 }
      Except.ok (s2, svc)

/-- `MailService.reset`: sets `self.service` to `None` only (the source
does not touch `self.credentials`). -/
def MailService.reset (s : MailState) : MailState :=
  { s with service := none }

/-- Class-level state of `sheets/client.py` `SheetsService`: configured key
file and test spreadsheet, the class attributes `credentials`, `service` and
`headers`, the configured retry delay, and the construction counter. -/
structure SheetsState where
  sa_keyfile : Option String
  spreadsheet_test : Option String
  credentials : Option Nat
  service : Option Nat
  headers : Option Nat
  retry_delay : Rat
  buildCount : Nat
deriving DecidableEq, Repr

/-- The connectivity-probe retry loop inside `SheetsService.getService`:
`probe n` is the outcome (`none` = success) of the probe attempt made when
`failures = n`.  On failure: increment `failures`; past 5, log abandonment
and keep the error; otherwise log a warning, sleep, multiply the delay by
1.5 and retry.  The `SheetsService` logger always exists, so log events are
unconditional. -/
def sheetsGetGo (probe : Nat → Option GError) (failures : Nat) (delay : ℚ) :
    List Event × Option GError :=
  match probe failures with
  | none => ([], none)
  | some e =>
    if _h : failures + 1 > 5 then
      ([Event.logWarnAbandon], some e)
    else
      let rest := sheetsGetGo probe (failures + 1) (delay * (3 / 2))
      (Event.logWarnFailed (failures + 1) delay :: Event.sleep delay :: rest.1, rest.2)
termination_by 5 - failures
decreasing_by
  simp_wf
  omega

/-- `SheetsService.getService`: returns the cached client when present;
raises the configuration `RuntimeError` when the key file or the test
spreadsheet is unset; otherwise builds credentials and a client (this is
where `discovery.build` runs, counted by `buildCount`), probes the test
spreadsheet through the retry loop, and only on probe success assigns the
class attributes `credentials`, `headers` and `service`.  Returns the event
trace, the resulting class state, and the result. -/
def SheetsService.getService (probe : Nat → Option GError) (s : SheetsState) :
    List Event × SheetsState × Except GError Nat :=
  match s.service with
  | some svc => ([], s, Except.ok svc)
  | none =>
    if s.sa_keyfile = none ∨ s.spreadsheet_test = none then
      ([], s, Except.error (GError.runtimeError "Service is not configured"))
    else
      let svc := s.buildCount
      let s1 : SheetsState := { s with buildCount := s.buildCount + 1 }
      match sheetsGetGo probe 0 s.retry_delay with
      | (tr, none) =>
        (tr, { s1 with credentials := some svc, headers := some svc, service := some svc },
          Except.ok svc)
      | (tr, some e) => (tr, s1, Except.error e)

/-- `SheetsService.reset`: sets the class attributes `service` and `headers`
to `None` (the source does not touch `SheetsService.credentials`). -/
def SheetsService.reset (s : SheetsState) : SheetsState :=
  { s with service := none, headers := none }

/-- Whether `sheets/operations.py` `_handleException` re-raises the error:
an `HttpError` with status 403 or 400, or any `RuntimeError`; other errors
fall through to the caller's retry path. -/
def handleExceptionRaises : GError → Bool
  | GError.httpError status => status == 403 || status == 400
  | GError.runtimeError _ => true
  | GError.otherError _ => false

/-- The critical log lines `_handleException` emits: one for an `HttpError`
with status 403 or 400, none otherwise. -/
def handleExceptionLog (e : GError) : List Event :=
  match e with
  | GError.httpError status =>
    if status == 403 || status == 400 then [Event.logCritical] else []
  | _ => []

/-- The retry loop of `sheets/operations.py` `removefilter` (with
`dryrun = False`): each attempt logs an info line and performs the
`getService` + `batchUpdate` call, abstracted as `op n`, the error (if any)
of the attempt made when `failures = n`.  On error, `_handleException` may
re-raise; otherwise increment `failures`; past 5, log abandonment and
re-raise; otherwise log a warning, `time.sleep(delay)`, call
`SheetsService.reset()`, multiply the delay by 1.5 and retry. -/
def removefilterGo (op : Nat → Option GError) (failures : Nat) (delay : ℚ) :
    List Event × Option GError :=
  match op failures with
  | none => ([Event.logInfoOp], none)
  | some e =>
    if handleExceptionRaises e then
      (Event.logInfoOp :: handleExceptionLog e, some e)
    else
      if _h : failures + 1 > 5 then
        ([Event.logInfoOp, Event.logWarnAbandon], some e)
      else
        let rest := removefilterGo op (failures + 1) (delay * (3 / 2))
        (Event.logInfoOp :: Event.logWarnFailed (failures + 1) delay
            :: Event.sleep delay :: Event.reset :: rest.1, rest.2)
termination_by 5 - failures
decreasing_by
  simp_wf
  omega

/-- `removefilter`: the loop starts with `failures = 0` and
`delay = SheetsService._retry_delay`. -/
def removefilter (op : Nat → Option GError) (retry_delay : ℚ) :
    List Event × Option GError :=
  removefilterGo op 0 retry_delay

/-- `drive/operations.py` `download_file`: wraps the raw download in
`execute` (called with its default `retry_delay = 5` and no logger) and
catches every exception escaping it, logging one warning and returning
`None`; on success it returns the destination path. -/
def download_file (op : Nat → Except GError String) : List Event × Option String :=
  match execute op 5 false with
  | (tr, Except.ok r) => (tr, some r)
  | (tr, Except.error _) => (tr ++ [Event.logWarnCouldNot], none)

/-- `drive/operations.py` `upload_file`: same wrapper shape as
`download_file`, returning the created file's id or `None`. -/
def upload_file (op : Nat → Except GError String) : List Event × Option String :=
  match execute op 5 false with
  | (tr, Except.ok r) => (tr, some r)
  | (tr, Except.error _) => (tr ++ [Event.logWarnCouldNot], none)

/-- `drive/operations.py` `update_file`: same wrapper shape as
`download_file`, returning the updated file's id or `None`. -/
def update_file (op : Nat → Except GError String) : List Event × Option String :=
  match execute op 5 false with
  | (tr, Except.ok r) => (tr, some r)
  | (tr, Except.error _) => (tr ++ [Event.logWarnCouldNot], none)

/-- `drive/operations.py` `insert_file`: same wrapper shape as
`download_file`, returning the created file's id or `None`. -/
def insert_file (op : Nat → Except GError String) : List Event × Option String :=
  match execute op 5 false with
  | (tr, Except.ok r) => (tr, some r)
  | (tr, Except.error _) => (tr ++ [Event.logWarnCouldNot], none)

/-- The per-retry ordering asserted by the spec for retry loops coordinating
with a service handle: reading the trace left to right, every sleep is
preceded by the reset of its retry round, so each prefix holds at least as
many resets as sleeps. -/
def resetBeforeEachSleep (tr : List Event) : Prop :=
  ∀ n, sleepCount (tr.take n) ≤ resetCount (tr.take n)

/-- The per-retry ordering the sheets code actually implements: sleeps and
resets occur only as part of a block `logWarnFailed n d, sleep d, reset`
(warn with the current delay, sleep that delay, then reset the handle). -/
def retryBlocksWellOrdered : List Event → Bool
  | [] => true
  | Event.logWarnFailed _ d :: Event.sleep d2 :: Event.reset :: rest =>
    (d2 == d) && retryBlocksWellOrdered rest
  | Event.sleep _ :: _ => false
  | Event.reset :: _ => false
  | _ :: rest => retryBlocksWellOrdered rest

/-- A callback that always raises the retryable error of the test scenario
(`RuntimeWarning("warning")`, neither an `HttpError` nor a `RuntimeError`). -/
def alwaysWarning : Nat → Except GError Nat :=
  fun _ => Except.error (GError.otherError "warning")

/-- A `removefilter` operation failing transiently on its first attempt and
succeeding on the second. -/
def failsOnceOp : Nat → Option GError :=
  fun n => if n = 0 then some (GError.otherError "transient") else none

/-- A Sheets connectivity probe that fails on every attempt with the same
transient error. -/
def timeoutProbe : Nat → Option GError :=
  fun _ => some (GError.otherError "timeout")

/-- A configured Mail handle holding a cached client and credentials. -/
def mailExample : MailState :=
  { sa_keyfile := some "key.json", sender := "user@example.com",
    service := some 3, credentials := some 7, buildCount := 4 }

/-- A configured Sheets class state holding a cached client, headers and
credentials. -/
def sheetsExample : SheetsState :=
  { sa_keyfile := some "key.json", spreadsheet_test := some "test-sheet",
    credentials := some 9, service := some 3, headers := some 3,
    retry_delay := 5, buildCount := 4 }

/-- A configured Sheets class state with nothing cached yet. -/
def sheetsIdleExample : SheetsState :=
  { sa_keyfile := some "key.json", spreadsheet_test := some "test-sheet",
    credentials := none, service := none, headers := none,
    retry_delay := 5, buildCount := 0 }

/-- A configured Drive handle with nothing cached yet. -/
def driveIdleExample : DriveState :=
  { sa_keyfile := some "key.json", service := none, credentials := none,
    buildCount := 0 }

/-- A Drive handle on which `configure` was never called. -/
def driveUnconfigured : DriveState :=
  { sa_keyfile := none, service := none, credentials := none, buildCount := 0 }

/-- A configured Mail handle with nothing cached yet. -/
def mailIdleExample : MailState :=
  { sa_keyfile := some "key.json", sender := "user@example.com",
    service := none, credentials := none, buildCount := 0 }

/-- The state of a Drive handle right after one client construction. -/
def driveBuilt (s : DriveState) : DriveState :=
  let b := s.buildCount
  { s with service := some b, credentials := some b, buildCount := b + 1 }

/-- The state of a Mail handle right after one client construction. -/
def mailBuilt (m : MailState) : MailState :=
  let b := m.buildCount
  { m with service := some b, credentials := some b, buildCount := b + 1 }

/-- The Sheets class state right after one client construction with a
successful connectivity probe. -/
def sheetsBuilt (t : SheetsState) : SheetsState :=
  let b := t.buildCount
  { t with credentials := some b, service := some b, headers := some b, buildCount := b + 1 }

/-- An operation that always raises the fatal `HttpError(status=403)`. -/
def fatal403Op : Nat → Except GError String :=
  fun _ => Except.error (GError.httpError 403)

/-- Unfolding `execute` on an operation that raises the same retryable error
on every attempt: five warn/sleep rounds with delays growing by a factor of
1.5, then one abandonment warning, re-raising the error. -/
theorem execute_allFail_trace {X : Type} (cb : Nat → Except GError X) (e : GError)
    (d : ℚ) (hall : ∀ n, cb n = Except.error e) (hret : isFatalCommon e = false) :
    execute cb d true =
      ([Event.logWarnFailed 1 d, Event.sleep d,
        Event.logInfoRetrying, Event.logWarnFailed 2 (d * (3 / 2)), Event.sleep (d * (3 / 2)),
        Event.logInfoRetrying, Event.logWarnFailed 3 (d * (3 / 2) * (3 / 2)),
          Event.sleep (d * (3 / 2) * (3 / 2)),
        Event.logInfoRetrying, Event.logWarnFailed 4 (d * (3 / 2) * (3 / 2) * (3 / 2)),
          Event.sleep (d * (3 / 2) * (3 / 2) * (3 / 2)),
        Event.logInfoRetrying,
          Event.logWarnFailed 5 (d * (3 / 2) * (3 / 2) * (3 / 2) * (3 / 2)),
          Event.sleep (d * (3 / 2) * (3 / 2) * (3 / 2) * (3 / 2)),
        Event.logInfoRetrying, Event.logWarnAbandon], Except.error e) := by
  simp [execute, executeGo, hall, hret]

/-- C1: an operation raising an `HttpError` with status 400 or 403, or a
`RuntimeError`, is re-raised by `execute` immediately: the result is that
same error and the trace is empty — no sleep, no retry warning, no
"Too many failures" log. -/
theorem execute_fatal_raises_immediately {X : Type} (cb : Nat → Except GError X)
    (e : GError) (d : ℚ) (hl : Bool) (h0 : cb 0 = Except.error e)
    (hf : e = GError.httpError 400 ∨ e = GError.httpError 403 ∨
      ∃ m, e = GError.runtimeError m) :
    execute cb d hl = ([], Except.error e) := by
  have hfb : isFatalCommon e = true := by
    rcases hf with h | h | ⟨m, h⟩ <;> subst h <;> rfl
  simp [execute, executeGo, h0, hfb]

/-- Witness for C1 at the concrete fatal error `HttpError(status=403)`. -/
theorem execute_fatal_raises_immediately_witness :
    execute (fun _ => Except.error (GError.httpError 403) : Nat → Except GError Nat) 5 true
      = ([], Except.error (GError.httpError 403)) :=
  execute_fatal_raises_immediately (fun _ => Except.error (GError.httpError 403))
    (GError.httpError 403) 5 true rfl (Or.inr (Or.inl rfl))

/-- C2: on an operation that always raises the same retryable error,
`execute` with initial delay `d` performs exactly 5 retries — 5 failure
warnings and 5 sleeps with delays `d, 1.5d, 2.25d, 3.375d, 5.0625d` — then
logs the abandonment warning exactly once and re-raises the original
error. -/
theorem execute_retryable_exhausts_after_five {X : Type} (cb : Nat → Except GError X)
    (e : GError) (d : ℚ) (hall : ∀ n, cb n = Except.error e)
    (hret : isFatalCommon e = false) :
    (execute cb d true).2 = Except.error e ∧
    warnFailedCount (execute cb d true).1 = 5 ∧
    sleepDelays (execute cb d true).1 =
      [d, 3 / 2 * d, 9 / 4 * d, 27 / 8 * d, 81 / 16 * d] ∧
    abandonCount (execute cb d true).1 = 1 := by
  rw [execute_allFail_trace cb e d hall hret]
  refine ⟨rfl, by simp [warnFailedCount], ?_, by simp [abandonCount]⟩
  simp only [sleepDelays, List.filterMap]
  norm_num
  refine ⟨by ring, by ring, by ring, by ring⟩

/-- Witness for C2 with the always-failing retryable callback and initial
delay 5. -/
theorem execute_retryable_exhausts_after_five_witness :
    (execute alwaysWarning 5 true).2 = Except.error (GError.otherError "warning") ∧
    warnFailedCount (execute alwaysWarning 5 true).1 = 5 ∧
    sleepDelays (execute alwaysWarning 5 true).1 =
      [5, 3 / 2 * 5, 9 / 4 * 5, 27 / 8 * 5, 81 / 16 * 5] ∧
    abandonCount (execute alwaysWarning 5 true).1 = 1 :=
  execute_retryable_exhausts_after_five alwaysWarning (GError.otherError "warning") 5
    (fun _ => rfl) rfl

/-- The first event `execute` ever emits is never the "Retrying..." info
line: it is only logged when the failure counter is positive. -/
theorem execute_head_not_retrying {X : Type} (cb : Nat → Except GError X)
    (d : ℚ) (hl : Bool) :
    (execute cb d hl).1.head? ≠ some Event.logInfoRetrying := by
  intro h
  rw [execute, executeGo] at h
  cases hcb : cb 0 with
  | ok x => rw [hcb] at h; simp at h
  | error e =>
    rw [hcb] at h
    by_cases hf : isFatalCommon e
    · simp [hf] at h
    · cases hl <;> simp [hf] at h

/-- C8: `execute` with initial delay 0 on the always-failing retryable
callback: zero stays zero under the 1.5 multiplication, so all five sleeps
have delay 0, the abandonment warning is logged once, and the original
error is re-raised after exactly 5 retries. -/
theorem execute_zero_delay_exhausts :
    (execute alwaysWarning 0 true).2 = Except.error (GError.otherError "warning") ∧
    sleepDelays (execute alwaysWarning 0 true).1 = [0, 0, 0, 0, 0] ∧
    warnFailedCount (execute alwaysWarning 0 true).1 = 5 ∧
    abandonCount (execute alwaysWarning 0 true).1 = 1 := by
  rw [execute_allFail_trace alwaysWarning (GError.otherError "warning") 0
    (fun _ => rfl) rfl]
  norm_num [sleepDelays, warnFailedCount, abandonCount, List.filterMap_cons]

/-- C9: an operation succeeding on its first attempt makes `execute` return
its result with an empty trace — no sleep and no log line — and the
"Retrying..." info line is never the first thing `execute` logs. -/
theorem execute_first_attempt_silent {X : Type} (cb : Nat → Except GError X) (x : X)
    (d : ℚ) (hl : Bool) (h0 : cb 0 = Except.ok x) :
    execute cb d hl = ([], Except.ok x) ∧
    (∀ (Y : Type) (cb2 : Nat → Except GError Y) (d2 : ℚ) (hl2 : Bool),
      (execute cb2 d2 hl2).1.head? ≠ some Event.logInfoRetrying) := by
  constructor
  · simp [execute, executeGo, h0]
  · intro Y cb2 d2 hl2
    exact execute_head_not_retrying cb2 d2 hl2

/-- Witness for C9: `execute(lambda: 42)` returns 42 with no log output. -/
theorem execute_first_attempt_silent_witness :
    execute (fun _ => Except.ok 42 : Nat → Except GError Nat) 5 true
        = ([], Except.ok 42) ∧
    (∀ (Y : Type) (cb2 : Nat → Except GError Y) (d2 : ℚ) (hl2 : Bool),
      (execute cb2 d2 hl2).1.head? ≠ some Event.logInfoRetrying) :=
  execute_first_attempt_silent (fun _ => Except.ok 42) 42 5 true rfl

/-- C3 counterexample: `MailService.reset` leaves `credentials` untouched
(still `some 7` on a handle that held credentials), so it does not set the
stored credentials to `None`; `SheetsService.reset` likewise keeps
`SheetsService.credentials`. -/
theorem mail_reset_keeps_credentials_cex :
    (MailService.reset mailExample).credentials = some 7 ∧
    ((MailService.reset mailExample).credentials = none) = False ∧
    (SheetsService.reset sheetsExample).credentials = some 9 := by
  refine ⟨rfl, ?_, rfl⟩
  simp [MailService.reset, mailExample]

/-- C3 amended: every `reset()` clears the cached client; `DriveService`
also clears its credentials, while `MailService` keeps its credentials and
`SheetsService` clears `headers` but keeps `SheetsService.credentials`. -/
theorem reset_clears_client_fields (s : DriveState) (m : MailState) (t : SheetsState) :
    (DriveService.reset s).service = none ∧
    (DriveService.reset s).credentials = none ∧
    (MailService.reset m).service = none ∧
    (MailService.reset m).credentials = m.credentials ∧
    (SheetsService.reset t).service = none ∧
    (SheetsService.reset t).headers = none ∧
    (SheetsService.reset t).credentials = t.credentials :=
  ⟨rfl, rfl, rfl, rfl, rfl, rfl, rfl⟩

/-- Sleeps and resets in any `removefilter` trace occur only as complete
blocks "warn, sleep, reset", proved by induction on the remaining retry
budget. -/
theorem removefilterGo_blocks (op : Nat → Option GError) :
    ∀ (k f : Nat) (d : ℚ), 5 - f ≤ k →
      retryBlocksWellOrdered (removefilterGo op f d).1 = true := by
  intro k
  induction k with
  | zero =>
    intro f d hk
    rw [removefilterGo]
    cases hop : op f with
    | none => simp [retryBlocksWellOrdered]
    | some e =>
      have h6 : f + 1 > 5 := by omega
      by_cases hr : handleExceptionRaises e
      · cases e <;> simp_all [retryBlocksWellOrdered, handleExceptionRaises,
          handleExceptionLog]
      · simp [hr, h6, retryBlocksWellOrdered]
  | succ k ih =>
    intro f d hk
    rw [removefilterGo]
    cases hop : op f with
    | none => simp [retryBlocksWellOrdered]
    | some e =>
      by_cases hr : handleExceptionRaises e
      · cases e <;> simp_all [retryBlocksWellOrdered, handleExceptionRaises,
          handleExceptionLog]
      · by_cases h6 : f + 1 > 5
        · simp [hr, h6, retryBlocksWellOrdered]
        · simp only [hr, h6, if_false, dif_neg, Bool.false_eq_true, if_neg]
          simp [retryBlocksWellOrdered]
          exact ih (f + 1) (d * (3 / 2)) (by omega)

/-- `execute` never emits a reset event: the generic executor of
`common/operations.py` has no handle-reset hook. -/
theorem executeGo_no_reset {X : Type} (cb : Nat → Except GError X) (hl : Bool) :
    ∀ (k f : Nat) (d : ℚ), 5 - f ≤ k →
      resetCount (executeGo cb hl f d).1 = 0 := by
  intro k
  induction k with
  | zero =>
    intro f d hk
    rw [executeGo]
    have h6 : f + 1 > 5 := by omega
    cases hcb : cb f with
    | ok x => cases hl <;> split_ifs <;> simp [resetCount]
    | error e =>
      by_cases hf : isFatalCommon e <;>
        cases hl <;> simp [hf, h6, resetCount]
  | succ k ih =>
    intro f d hk
    rw [executeGo]
    cases hcb : cb f with
    | ok x => cases hl <;> split_ifs <;> simp [resetCount]
    | error e =>
      by_cases hf : isFatalCommon e
      · cases hl <;> simp [hf, resetCount]
      · by_cases h6 : f + 1 > 5
        · cases hl <;> simp [hf, h6, resetCount]
        · have hrest := ih (f + 1) (d * (3 / 2)) (by omega)
          cases hl <;>
            simp [hf, h6, resetCount, List.countP_append, List.countP_cons]
              at hrest ⊢ <;>
            exact hrest

/-- C4 counterexample: `removefilter` with an operation that fails once
transiently produces the trace info, warn, sleep(5), reset, info: the sleep
happens strictly before the handle reset, so the spec's ordering (reset
before sleeping on each transient failure) fails on this input. -/
theorem removefilter_sleep_precedes_reset_cex :
    (removefilter failsOnceOp 5).1 =
      [Event.logInfoOp, Event.logWarnFailed 1 5, Event.sleep 5, Event.reset,
        Event.logInfoOp] ∧
    resetBeforeEachSleep (removefilter failsOnceOp 5).1 = False := by
  have htr : (removefilter failsOnceOp 5).1 =
      [Event.logInfoOp, Event.logWarnFailed 1 5, Event.sleep 5, Event.reset,
        Event.logInfoOp] := by
    simp [removefilter, removefilterGo, failsOnceOp, handleExceptionRaises]
  refine ⟨htr, ?_⟩
  rw [htr]
  apply eq_false
  intro h
  have h3 := h 3
  norm_num [sleepCount, sleepDelays, resetCount, List.take,
    List.countP_cons, List.filterMap_cons] at h3

/-- C4 amended: in the sheets module's hand-rolled retry loops the order of
effects per retry is log warning, sleep, then reset (the handle reset comes
immediately after the backoff sleep, before the delay is multiplied), and
the generic executor `execute` performs no reset at all. -/
theorem removefilter_resets_after_sleeping (op : Nat → Option GError) (d : ℚ) :
    retryBlocksWellOrdered (removefilter op d).1 = true ∧
    (∀ (Y : Type) (cb : Nat → Except GError Y) (d2 : ℚ) (hl : Bool),
      resetCount (execute cb d2 hl).1 = 0) := by
  constructor
  · exact removefilterGo_blocks op 5 0 d (by omega)
  · intro Y cb d2 hl
    exact executeGo_no_reset cb hl 5 0 d2 (by omega)

/-- Unfolding the Sheets connectivity-probe loop when every probe attempt
fails: five warn/sleep rounds with delays growing by 1.5, then the
abandonment warning, keeping the error of the last (sixth) attempt. -/
theorem sheetsGetGo_allFail_trace (probe : Nat → Option GError) (es : Nat → GError)
    (d : ℚ) (hall : ∀ n, probe n = some (es n)) :
    sheetsGetGo probe 0 d =
      ([Event.logWarnFailed 1 d, Event.sleep d,
        Event.logWarnFailed 2 (d * (3 / 2)), Event.sleep (d * (3 / 2)),
        Event.logWarnFailed 3 (d * (3 / 2) * (3 / 2)), Event.sleep (d * (3 / 2) * (3 / 2)),
        Event.logWarnFailed 4 (d * (3 / 2) * (3 / 2) * (3 / 2)),
          Event.sleep (d * (3 / 2) * (3 / 2) * (3 / 2)),
        Event.logWarnFailed 5 (d * (3 / 2) * (3 / 2) * (3 / 2) * (3 / 2)),
          Event.sleep (d * (3 / 2) * (3 / 2) * (3 / 2) * (3 / 2)),
        Event.logWarnAbandon], some (es 5)) := by
  simp [sheetsGetGo, hall]

/-- Any error kept by the Sheets connectivity-probe loop was raised by one
of the probe attempts. -/
theorem sheetsGetGo_err_probe (probe : Nat → Option GError) :
    ∀ (k failures : Nat) (delay : ℚ) (e : GError), 5 - failures ≤ k →
      (sheetsGetGo probe failures delay).2 = some e → ∃ n, probe n = some e := by
  intro k
  induction k with
  | zero =>
    intro f d e hk h
    rw [sheetsGetGo] at h
    cases hp : probe f with
    | none => rw [hp] at h; simp at h
    | some e2 =>
      rw [hp] at h
      have h6 : f + 1 > 5 := by omega
      simp [h6] at h
      exact ⟨f, by rw [hp, h]⟩
  | succ k ih =>
    intro f d e hk h
    rw [sheetsGetGo] at h
    cases hp : probe f with
    | none => rw [hp] at h; simp at h
    | some e2 =>
      rw [hp] at h
      by_cases h6 : f + 1 > 5
      · simp [h6] at h
        exact ⟨f, by rw [hp, h]⟩
      · simp [h6] at h
        exact ih (f + 1) (d * (3 / 2)) e (by omega) h

/-- C5: on a configured Sheets handle with no cached client, when every
connectivity-probe attempt fails, `getService` raises the last probe error
after 5 retries (5 warnings, 5 sleeps, one abandonment log), and the class
attributes `service`, `credentials` and `headers` are left exactly as
before the call. -/
theorem sheets_probe_exhaust_no_handle (probe : Nat → Option GError)
    (es : Nat → GError) (s : SheetsState) (kf ts : String)
    (hkf : s.sa_keyfile = some kf) (hts : s.spreadsheet_test = some ts)
    (hsv : s.service = none) (hall : ∀ n, probe n = some (es n)) :
    (SheetsService.getService probe s).2.2 = Except.error (es 5) ∧
    (SheetsService.getService probe s).2.1.service = none ∧
    (SheetsService.getService probe s).2.1.credentials = s.credentials ∧
    (SheetsService.getService probe s).2.1.headers = s.headers ∧
    warnFailedCount (SheetsService.getService probe s).1 = 5 ∧
    sleepCount (SheetsService.getService probe s).1 = 5 ∧
    abandonCount (SheetsService.getService probe s).1 = 1 := by
  have htr := sheetsGetGo_allFail_trace probe es s.retry_delay hall
  have hcond : ¬(s.sa_keyfile = none ∨ s.spreadsheet_test = none) := by
    simp [hkf, hts]
  simp only [SheetsService.getService, hsv, htr, if_neg hcond]
  norm_num [warnFailedCount, sleepCount, sleepDelays, abandonCount, hsv,
    List.countP_cons, List.filterMap_cons]

/-- Witness for C5 on a concrete configured idle Sheets state and a probe
that always times out. -/
theorem sheets_probe_exhaust_no_handle_witness :
    (SheetsService.getService timeoutProbe sheetsIdleExample).2.2
        = Except.error (GError.otherError "timeout") ∧
    (SheetsService.getService timeoutProbe sheetsIdleExample).2.1.service = none ∧
    (SheetsService.getService timeoutProbe sheetsIdleExample).2.1.credentials
        = sheetsIdleExample.credentials ∧
    (SheetsService.getService timeoutProbe sheetsIdleExample).2.1.headers
        = sheetsIdleExample.headers ∧
    warnFailedCount (SheetsService.getService timeoutProbe sheetsIdleExample).1 = 5 ∧
    sleepCount (SheetsService.getService timeoutProbe sheetsIdleExample).1 = 5 ∧
    abandonCount (SheetsService.getService timeoutProbe sheetsIdleExample).1 = 1 :=
  sheets_probe_exhaust_no_handle timeoutProbe (fun _ => GError.otherError "timeout")
    sheetsIdleExample "key.json" "test-sheet" rfl rfl rfl (fun _ => rfl)

/-- C6 counterexample: a configured idle Sheets handle whose connectivity
probe always fails: `getService` is configured yet does not return a client
resource — it raises the probe's (non-configuration) error. -/
theorem sheets_configured_getService_raises_cex :
    sheetsIdleExample.sa_keyfile = some "key.json" ∧
    sheetsIdleExample.spreadsheet_test = some "test-sheet" ∧
    (SheetsService.getService timeoutProbe sheetsIdleExample).2.2
        = Except.error (GError.otherError "timeout") ∧
    exceptIsOk (SheetsService.getService timeoutProbe sheetsIdleExample).2.2 = false := by
  have htr := sheetsGetGo_allFail_trace timeoutProbe (fun _ => GError.otherError "timeout")
    5 (fun _ => rfl)
  refine ⟨rfl, rfl, ?_, ?_⟩ <;>
    simp [SheetsService.getService, sheetsIdleExample, exceptIsOk, htr]

/-- C6 amended: for each handle, `getService` raises the configuration
`RuntimeError` exactly when the handle holds no cached client and is
unconfigured (key file unset; for Sheets, key file or test spreadsheet
unset, assuming the probe itself never raises that exact error); when
configured, Drive and Gmail always return a client resource, and Sheets
returns one when its connectivity probe succeeds — otherwise it raises the
probe's error, not the configuration error. -/
theorem getService_config_error_iff :
    (∀ s : DriveState, s.service = none →
      (DriveService.getService s
          = Except.error (GError.runtimeError "Service is not configured")
        ↔ s.sa_keyfile = none)) ∧
    (∀ (s : DriveState) (kf : String), s.sa_keyfile = some kf →
      ∃ p, DriveService.getService s = Except.ok p) ∧
    (∀ m : MailState, m.service = none →
      (MailService.getService m
          = Except.error (GError.runtimeError "Service is not configured")
        ↔ m.sa_keyfile = none)) ∧
    (∀ (m : MailState) (kf : String), m.sa_keyfile = some kf →
      ∃ p, MailService.getService m = Except.ok p) ∧
    (∀ (probe : Nat → Option GError) (t : SheetsState), t.service = none →
      (∀ n e2, probe n = some e2 →
        e2 ≠ GError.runtimeError "Service is not configured") →
      ((SheetsService.getService probe t).2.2
          = Except.error (GError.runtimeError "Service is not configured")
        ↔ (t.sa_keyfile = none ∨ t.spreadsheet_test = none))) ∧
    (∀ (probe : Nat → Option GError) (t : SheetsState) (kf ts : String),
      t.sa_keyfile = some kf → t.spreadsheet_test = some ts → probe 0 = none →
      ∃ r, (SheetsService.getService probe t).2.2 = Except.ok r) := by
  refine ⟨?_, ?_, ?_, ?_, ?_, ?_⟩
  · intro s hsv
    cases hkf : s.sa_keyfile <;> simp [DriveService.getService, hsv, hkf]
  · intro s kf hkf
    cases hsv : s.service with
    | some svc => exact ⟨(s, svc), by simp [DriveService.getService, hsv]⟩
    | none =>
      refine ⟨({ s with service := some s.buildCount,
                        credentials := some s.buildCount,
                        buildCount := s.buildCount + 1 }, s.buildCount), ?_⟩
      simp [DriveService.getService, hsv, hkf]
  · intro m hsv
    cases hkf : m.sa_keyfile <;> simp [MailService.getService, hsv, hkf]
  · intro m kf hkf
    cases hsv : m.service with
    | some svc => exact ⟨(m, svc), by simp [MailService.getService, hsv]⟩
    | none =>
      refine ⟨({ m with service := some m.buildCount,
                        credentials := some m.buildCount,
                        buildCount := m.buildCount + 1 }, m.buildCount), ?_⟩
      simp [MailService.getService, hsv, hkf]
  · intro probe t hsv hne
    constructor
    · intro h
      by_cases hcfg : t.sa_keyfile = none ∨ t.spreadsheet_test = none
      · exact hcfg
      · exfalso
        simp only [SheetsService.getService, hsv, if_neg hcfg] at h
        cases hgo : sheetsGetGo probe 0 t.retry_delay with
        | mk tr res =>
          cases res with
          | none => rw [hgo] at h; simp at h
          | some e2 =>
            rw [hgo] at h
            simp at h
            obtain ⟨n, hn⟩ := sheetsGetGo_err_probe probe 5 0 t.retry_delay e2
              (by omega) (by rw [hgo])
            exact hne n e2 hn (by rw [h])
    · intro hcfg
      simp [SheetsService.getService, hsv, if_pos hcfg]
  · intro probe t kf ts hkf hts h0
    cases hsv : t.service with
    | some svc => exact ⟨svc, by simp [SheetsService.getService, hsv]⟩
    | none =>
      have hcond : ¬(t.sa_keyfile = none ∨ t.spreadsheet_test = none) := by
        simp [hkf, hts]
      have hgo : sheetsGetGo probe 0 t.retry_delay = ([], none) := by
        rw [sheetsGetGo]
        simp [h0]
      exact ⟨t.buildCount, by simp [SheetsService.getService, hsv, if_neg hcond, hgo]⟩

/-- C7: `reset()` is idempotent on all three handles and leaves a
configured handle in the idle state; one `getService()` after a reset
performs exactly one client construction (the construction counter grows by
one), and a further `getService()` returns the cached client with no new
construction. -/
theorem reset_idempotent_single_rebuild :
    (∀ s : DriveState, DriveService.reset (DriveService.reset s) = DriveService.reset s) ∧
    (∀ m : MailState, MailService.reset (MailService.reset m) = MailService.reset m) ∧
    (∀ t : SheetsState, SheetsService.reset (SheetsService.reset t) = SheetsService.reset t) ∧
    (∀ s : DriveState, (DriveService.reset s).service = none) ∧
    (∀ m : MailState, (MailService.reset m).service = none) ∧
    (∀ t : SheetsState, (SheetsService.reset t).service = none) ∧
    (∀ (s : DriveState) (kf : String), s.sa_keyfile = some kf →
      DriveService.getService (DriveService.reset s)
          = Except.ok (driveBuilt s, s.buildCount) ∧
      (driveBuilt s).buildCount = s.buildCount + 1 ∧
      DriveService.getService (driveBuilt s)
          = Except.ok (driveBuilt s, s.buildCount)) ∧
    (∀ (m : MailState) (kf : String), m.sa_keyfile = some kf →
      MailService.getService (MailService.reset m)
          = Except.ok (mailBuilt m, m.buildCount) ∧
      (mailBuilt m).buildCount = m.buildCount + 1 ∧
      MailService.getService (mailBuilt m)
          = Except.ok (mailBuilt m, m.buildCount)) ∧
    (∀ (probe : Nat → Option GError) (t : SheetsState) (kf ts : String),
      t.sa_keyfile = some kf → t.spreadsheet_test = some ts → probe 0 = none →
      SheetsService.getService probe (SheetsService.reset t)
          = ([], sheetsBuilt t, Except.ok t.buildCount) ∧
      (sheetsBuilt t).buildCount = t.buildCount + 1 ∧
      SheetsService.getService probe (sheetsBuilt t)
          = ([], sheetsBuilt t, Except.ok t.buildCount)) := by
  refine ⟨fun s => rfl, fun m => rfl, fun t => rfl, fun s => rfl, fun m => rfl,
    fun t => rfl, ?_, ?_, ?_⟩
  · intro s kf hkf
    refine ⟨?_, rfl, ?_⟩
    · simp [DriveService.getService, DriveService.reset, driveBuilt, hkf]
    · simp [DriveService.getService, driveBuilt]
  · intro m kf hkf
    refine ⟨?_, rfl, ?_⟩
    · simp [MailService.getService, MailService.reset, mailBuilt, hkf]
    · simp [MailService.getService, mailBuilt]
  · intro probe t kf ts hkf hts h0
    have hgo : sheetsGetGo probe 0 t.retry_delay = ([], none) := by
      rw [sheetsGetGo]
      simp [h0]
    refine ⟨?_, rfl, ?_⟩
    · simp [SheetsService.getService, SheetsService.reset, sheetsBuilt, hkf, hts, hgo]
    · simp [SheetsService.getService, sheetsBuilt]

/-- C10: every failure escaping the retry executor inside the Drive file
helpers — fatal or exhausted alike — is caught: the helper logs one warning
and returns `none`; on success the helpers return the executor's result.
The helpers therefore never re-raise the underlying error. -/
theorem drive_helpers_swallow_errors (op : Nat → Except GError String) (e : GError)
    (he : (execute op 5 false).2 = Except.error e) :
    download_file op = ((execute op 5 false).1 ++ [Event.logWarnCouldNot], none) ∧
    upload_file op = ((execute op 5 false).1 ++ [Event.logWarnCouldNot], none) ∧
    update_file op = ((execute op 5 false).1 ++ [Event.logWarnCouldNot], none) ∧
    insert_file op = ((execute op 5 false).1 ++ [Event.logWarnCouldNot], none) ∧
    (∀ (op2 : Nat → Except GError String) (r : String),
      (execute op2 5 false).2 = Except.ok r →
      download_file op2 = ((execute op2 5 false).1, some r) ∧
      upload_file op2 = ((execute op2 5 false).1, some r) ∧
      update_file op2 = ((execute op2 5 false).1, some r) ∧
      insert_file op2 = ((execute op2 5 false).1, some r)) := by
  have hfail : ∀ (op3 : Nat → Except GError String) (e3 : GError),
      (execute op3 5 false).2 = Except.error e3 →
      (match execute op3 5 false with
        | (tr, Except.ok r) => (tr, some r)
        | (tr, Except.error _) => (tr ++ [Event.logWarnCouldNot], none))
        = ((execute op3 5 false).1 ++ [Event.logWarnCouldNot],
            (none : Option String)) := by
    intro op3 e3 he3
    cases hE : execute op3 5 false with
    | mk tr res =>
      rw [hE] at he3
      simp only at he3
      rw [he3]
  have hok : ∀ (op3 : Nat → Except GError String) (r : String),
      (execute op3 5 false).2 = Except.ok r →
      (match execute op3 5 false with
        | (tr, Except.ok r) => (tr, some r)
        | (tr, Except.error _) => (tr ++ [Event.logWarnCouldNot], none))
        = ((execute op3 5 false).1, some r) := by
    intro op3 r hr
    cases hE : execute op3 5 false with
    | mk tr res =>
      rw [hE] at hr
      simp only at hr
      rw [hr]
  refine ⟨hfail op e he, hfail op e he, hfail op e he, hfail op e he, ?_⟩
  intro op2 r hr
  exact ⟨hok op2 r hr, hok op2 r hr, hok op2 r hr, hok op2 r hr⟩

/-- Witness for C10 on an operation that always raises the fatal
`HttpError(status=403)`. -/
theorem drive_helpers_swallow_errors_witness :
    download_file fatal403Op
        = ((execute fatal403Op 5 false).1 ++ [Event.logWarnCouldNot], none) ∧
    upload_file fatal403Op
        = ((execute fatal403Op 5 false).1 ++ [Event.logWarnCouldNot], none) ∧
    update_file fatal403Op
        = ((execute fatal403Op 5 false).1 ++ [Event.logWarnCouldNot], none) ∧
    insert_file fatal403Op
        = ((execute fatal403Op 5 false).1 ++ [Event.logWarnCouldNot], none) ∧
    (∀ (op2 : Nat → Except GError String) (r : String),
      (execute op2 5 false).2 = Except.ok r →
      download_file op2 = ((execute op2 5 false).1, some r) ∧
      upload_file op2 = ((execute op2 5 false).1, some r) ∧
      update_file op2 = ((execute op2 5 false).1, some r) ∧
      insert_file op2 = ((execute op2 5 false).1, some r)) :=
  drive_helpers_swallow_errors fatal403Op (GError.httpError 403)
    (by simp [fatal403Op, execute, executeGo, isFatalCommon])
